import Mathlib

/-!
Shallow embedding of `src/newsGenerator.py` (shiori news generator).

Python dict/list/str/int/bool/None values are modelled by the inductive
`Json` type below; the external collaborators (the DDGS search client, the
generative-model client, Firestore) are passed as function parameters,
`Option`-valued where the Python call can raise.  Wall-clock instants are
modelled as rationals.
-/

namespace NewsGen

/-- Python-style JSON values (the data shapes flowing through the script).
Dicts are association lists in insertion order, numbers are modelled as
integers (no claim touches fractional numbers). -/
inductive Json where
  | null
  | bool (b : Bool)
  | num (n : Int)
  | str (s : String)
  | arr (elems : List Json)
  | obj (fields : List (String × Json))

/-- Python dict lookup (`d[k]` when present): first binding of the key. -/
def pyGet (fields : List (String × Json)) (k : String) : Option Json :=
  match fields with
  | [] => none
  | (k2, v) :: rest => if k2 = k then some v else pyGet rest k

/-- Python dict assignment `d[k] = v`: overwrite in place if the key is
present (insertion order preserved), otherwise append at the end. -/
def pySet (fields : List (String × Json)) (k : String) (v : Json) :
    List (String × Json) :=
  match fields with
  | [] => [(k, v)]
  | (k2, v2) :: rest =>
    if k2 = k then (k2, v) :: rest else (k2, v2) :: pySet rest k v

/-- Python `k in d` for a dict. -/
def pyHasKey (fields : List (String × Json)) (k : String) : Bool :=
  (pyGet fields k).isSome

/-- Python truthiness of a value (`if x:`). -/
def pyTruthy : Json → Bool
  | .null => false
  | .bool b => b
  | .num n => n != 0
  | .str s => !s.isEmpty
  | .arr xs => !xs.isEmpty
  | .obj fs => !fs.isEmpty

/-- Python `==` between a string and an arbitrary value (used by `in` on
lists): true precisely on the equal string. -/
def jsonStrEq (needle : String) : Json → Bool
  | .str s => s == needle
  | _ => false

/-- Python `needle in container` where the needle is a string: key test for
dicts, membership for lists, substring test for strings, `TypeError`
(modelled as `.error`) otherwise. -/
def pyIn (needle : String) (j : Json) : Except Unit Bool :=
  match j with
  | .obj fields => .ok (pyHasKey fields needle)
  | .arr xs => .ok (xs.any (jsonStrEq needle))
  | .str s => .ok (decide (1 < (s.splitOn needle).length))
  | _ => .error ()

/-- Python subscript `j[k]` with a string key: dict lookup (`KeyError` when
absent), `TypeError` on any non-dict, both modelled as `.error`. -/
def pySubscript (j : Json) (k : String) : Except Unit Json :=
  match j with
  | .obj fields =>
    match pyGet fields k with
    | some v => .ok v
    | none => .error ()
  | _ => .error ()

/-- The two bytes Lean may not spell literally in strings. -/
def lbrace : Char := Char.ofNat 123

def rbrace : Char := Char.ofNat 125

/-- Strip `pat` from the front of the input, if it is there. -/
def stripPat : List Char → List Char → Option (List Char)
  | [], rest => some rest
  | _ :: _, [] => none
  | p :: ps, c :: cs => if c = p then stripPat ps cs else none

/-- Left-to-right, non-overlapping replacement of every occurrence of a
(nonempty, as at every use in the source) pattern, fueled. -/
def replaceChars (pat rep : List Char) : Nat → List Char → List Char
  | 0, s => s
  | fuel + 1, s =>
    match s with
    | [] => []
    | c :: cs =>
      match stripPat pat s with
      | some rest => rep ++ replaceChars pat rep fuel rest
      | none => c :: replaceChars pat rep fuel cs

/-- Model of Python's `str.replace(pat, rep)`: replace every occurrence,
scanning left to right. -/
def pyReplace (s pat rep : String) : String :=
  String.mk (replaceChars pat.toList rep.toList (s.length + 1) s.toList)

/-- The whitespace characters removed by Python's `str.strip()` (the ASCII
ones; the strings in play are ASCII). -/
def isPyWs (c : Char) : Bool :=
  c == ' ' || c == '\t' || c == '\n' || c == '\r' ||
  c == Char.ofNat 11 || c == Char.ofNat 12

/-- Model of Python's `str.strip()`. -/
def pyStrip (s : String) : String :=
  String.mk (((s.toList.dropWhile isPyWs).reverse.dropWhile isPyWs).reverse)

/-- Model of Python's `str.lower()` on the ASCII subjects in play. -/
def pyLower (s : String) : String :=
  String.mk (s.toList.map fun c =>
    if 'A' ≤ c ∧ c ≤ 'Z' then Char.ofNat (c.toNat + 32) else c)

/-- Skip JSON whitespace. -/
def skipWs : List Char → List Char
  | [] => []
  | c :: cs =>
    if c = ' ' ∨ c = '\n' ∨ c = '\t' ∨ c = '\r' then skipWs cs else c :: cs

/-- Scan the body of a JSON string literal (after the opening quote),
returning the decoded characters and the input after the closing quote. -/
def parseStringChars : Nat → List Char → Option (List Char × List Char)
  | 0, _ => none
  | _, [] => none
  | fuel + 1, c :: cs =>
    if c = '"' then some ([], cs)
    else if c = '\\' then
      match cs with
      | [] => none
      | e :: cs2 =>
        let esc : Option Char :=
          if e = '"' then some '"'
          else if e = '\\' then some '\\'
          else if e = '/' then some '/'
          else if e = 'n' then some '\n'
          else if e = 't' then some '\t'
          else if e = 'r' then some '\r'
          else none
        match esc with
        | none => none
        | some ch =>
          match parseStringChars fuel cs2 with
          | some (rest, rem) => some (ch :: rest, rem)
          | none => none
    else
      match parseStringChars fuel cs with
      | some (rest, rem) => some (c :: rest, rem)
      | none => none

def digitVal (c : Char) : Nat := c.toNat - 48

def charsToNat (ds : List Char) : Nat :=
  ds.foldl (fun a c => a * 10 + digitVal c) 0

mutual

/-- Recursive-descent JSON value parser (model of Python's `json.loads`
on the fragment this program exchanges: objects, arrays, strings with the
common escapes, integers, booleans, null). -/
def parseValue : Nat → List Char → Option (Json × List Char)
  | 0, _ => none
  | fuel + 1, cs =>
    match skipWs cs with
    | [] => none
    | c :: rest =>
      if c = '"' then
        match parseStringChars (rest.length + 1) rest with
        | some (chars, rem) => some (.str (String.mk chars), rem)
        | none => none
      else if c = lbrace then parseObjBody fuel rest
      else if c = '[' then parseArrBody fuel rest
      else if c = 't' then
        match rest with
        | 'r' :: 'u' :: 'e' :: rem => some (.bool true, rem)
        | _ => none
      else if c = 'f' then
        match rest with
        | 'a' :: 'l' :: 's' :: 'e' :: rem => some (.bool false, rem)
        | _ => none
      else if c = 'n' then
        match rest with
        | 'u' :: 'l' :: 'l' :: rem => some (.null, rem)
        | _ => none
      else if c = '-' ∨ c.isDigit then
        let p := if c = '-' then (true, rest) else (false, c :: rest)
        let q := p.2.span Char.isDigit
        if q.1.isEmpty then none
        else
          let n : Int := charsToNat q.1
          some (.num (if p.1 then -n else n), q.2)
      else none

/-- Parse an object body (the opening brace already consumed). -/
def parseObjBody : Nat → List Char → Option (Json × List Char)
  | 0, _ => none
  | fuel + 1, cs =>
    match skipWs cs with
    | [] => none
    | c :: rest =>
      if c = rbrace then some (.obj [], rest)
      else parseObjItems fuel (c :: rest) []

/-- Parse object members; duplicate keys keep the last value, as in Python. -/
def parseObjItems : Nat → List Char → List (String × Json) →
    Option (Json × List Char)
  | 0, _, _ => none
  | fuel + 1, cs, acc =>
    match skipWs cs with
    | [] => none
    | c :: rest =>
      if c = '"' then
        match parseStringChars (rest.length + 1) rest with
        | none => none
        | some (keyChars, rem) =>
          match skipWs rem with
          | ':' :: rem2 =>
            match parseValue fuel rem2 with
            | none => none
            | some (v, rem3) =>
              let acc2 := pySet acc (String.mk keyChars) v
              match skipWs rem3 with
              | ',' :: rem4 => parseObjItems fuel rem4 acc2
              | c2 :: rem4 =>
                if c2 = rbrace then some (.obj acc2, rem4) else none
              | [] => none
          | _ => none
      else none

/-- Parse an array body (the opening bracket already consumed). -/
def parseArrBody : Nat → List Char → Option (Json × List Char)
  | 0, _ => none
  | fuel + 1, cs =>
    match skipWs cs with
    | [] => none
    | c :: rest =>
      if c = ']' then some (.arr [], rest)
      else parseArrItems fuel (c :: rest) []

def parseArrItems : Nat → List Char → List Json → Option (Json × List Char)
  | 0, _, _ => none
  | fuel + 1, cs, acc =>
    match parseValue fuel cs with
    | none => none
    | some (v, rem) =>
      match skipWs rem with
      | ',' :: rem2 => parseArrItems fuel rem2 (acc ++ [v])
      | ']' :: rem2 => some (.arr (acc ++ [v]), rem2)
      | _ => none

end

/-- Model of Python's `json.loads`: parse one value, demand only trailing
whitespace, raise (return `none`) otherwise. -/
def json_loads (s : String) : Option Json :=
  match parseValue (s.length + 1) s.toList with
  | some (j, rem) => if (skipWs rem).isEmpty then some j else none
  | none => none

/-! ### Configuration (`Config`, lines 21-36) -/

namespace Config

def REQUEST_INTERVAL_SECONDS : ℚ := 10

def SUBJECTS : List String :=
  ["Politics", "Economy & Business", "Technology",
   "Health & Science", "Sports", "Entertainment & Culture"]

def LANGUAGES : List (String × String) :=
  [("English", "en"), ("Portuguese", "pt"), ("Spanish", "es")]

end Config

/-- Document-id slug (line 210):
`subject.lower().replace(" & ", "-").replace(" ", "-")`. -/
def doc_id (subject : String) : String :=
  pyReplace (pyReplace (pyLower subject) " & " "-") " " "-"

/-! ### `ImageService` (lines 75-89) -/

/-- Byte kept verbatim by `urllib.parse.quote` with its default
`safe="/"`: letters, digits, `_ . - ~`, and the slash. -/
def quoteSafeByte (b : Nat) : Bool :=
  (0x41 ≤ b && b ≤ 0x5A) || (0x61 ≤ b && b ≤ 0x7A) ||
  (0x30 ≤ b && b ≤ 0x39) || b == 0x5F || b == 0x2E || b == 0x2D ||
  b == 0x7E || b == 0x2F

def hexDigit (n : Nat) : Char :=
  if n < 10 then Char.ofNat (48 + n) else Char.ofNat (55 + n)

def percentEncodeByte (b : Nat) : String :=
  String.mk ['%', hexDigit (b / 16), hexDigit (b % 16)]

/-- UTF-8 encoding of one character, as byte values. -/
def utf8Bytes (c : Char) : List Nat :=
  let n := c.toNat
  if n < 0x80 then [n]
  else if n < 0x800 then [0xC0 + n / 64, 0x80 + n % 64]
  else if n < 0x10000 then
    [0xE0 + n / 4096, 0x80 + (n / 64) % 64, 0x80 + n % 64]
  else
    [0xF0 + n / 262144, 0x80 + (n / 4096) % 64, 0x80 + (n / 64) % 64,
     0x80 + n % 64]

/-- Model of `urllib.parse.quote(text)` (default safe characters):
percent-encode every UTF-8 byte outside the safe set, uppercase hex. -/
def quote (text : String) : String :=
  String.join (((text.toList.map utf8Bytes).flatten).map (fun n =>
    if quoteSafeByte n then String.mk [Char.ofNat n] else percentEncodeByte n))

/-- `ImageService._get_placeholder` (lines 87-89): pure function of the
query text, no network call. -/
def get_placeholder (text : String) : String :=
  let sanitized := quote text
  "https://placehold.co/600x400/1e293b/ffffff/png?text=" ++ sanitized

/-- `ImageService.get_thumbnail_url` (lines 76-85), with the DDGS image
lookup passed in (`none` models a raised exception, `some urls` the result
list of image URLs). -/
def get_thumbnail_url (ddgs_images : String → Option (List String))
    (subject : String) : String :=
  match ddgs_images subject with
  | none => get_placeholder subject
  | some [] => get_placeholder subject
  | some (u :: _) => u

/-! ### `RateLimiter` (lines 38-54)

`wait_for_slot` runs entirely under `self.lock`, so concurrent callers are
serialized: a run of the limiter is a sequence of granted slots.  One slot
is described by the two wall-clock readings the code takes while holding
the lock: `tEnter` (`now = time.time()`, line 46) and `tStamp`
(`self.last_call_time = time.time()`, line 54).  The clock never runs
backwards between the two readings, and `asyncio.sleep(wait_time)`
suspends for at least `wait_time`, which gives the two constraints of
`wait_step`. -/

/-- The constraints lines 46-54 place on the two clock readings of one
granted slot, given the stored `last` call time. -/
def wait_step (interval last tEnter tStamp : ℚ) : Prop :=
  tEnter ≤ tStamp ∧
  (0 < interval - (tEnter - last) →
    tEnter + (interval - (tEnter - last)) ≤ tStamp)

/-- A serialized run of `wait_for_slot` grants, threading the stored
`last_call_time` (each slot stamps its `tStamp` as the new last call). -/
inductive GrantTrace (interval : ℚ) : ℚ → List (ℚ × ℚ) → Prop where
  | nil (last : ℚ) : GrantTrace interval last []
  | cons (last e s : ℚ) (rest : List (ℚ × ℚ)) :
      wait_step interval last e s →
      GrantTrace interval s rest →
      GrantTrace interval last ((e, s) :: rest)

/-! ### `NewsGenerator` (lines 91-172) -/

/-- One DDGS text-search result record, with the fields
(`title`, `body`, `href`) the search collaborator's interface provides. -/
structure SearchRecord where
  title : String
  body : String
  href : String
deriving Repr, DecidableEq

/-- The value `_get_news_context` returns: `{"text": ..., "links": ...}`. -/
structure SearchContext where
  text : String
  links : List String
deriving Repr, DecidableEq

/-- The line accumulated for the i-th (0-based) result, line 110:
`f"SOURCE {i+1}: {res['title']}\nSUMMARY: {res['body']}\n\n"`. -/
def contextLine (i : Nat) (r : SearchRecord) : String :=
  let title := r.title
  let body := r.body
  s!"SOURCE {i+1}: {title}\nSUMMARY: {body}\n\n"

/-- The accumulation loop of lines 109-111: concatenated context text and
the source URLs in result order. -/
def buildContext : Nat → List SearchRecord → String × List String
  | _, [] => ("", [])
  | i, r :: rs =>
    let p := buildContext (i + 1) rs
    (contextLine i r ++ p.1, r.href :: p.2)

/-- The query of line 101: `f"{subject} news {date_str}"`. -/
def news_search_query (subject date_str : String) : String :=
  s!"{subject} news {date_str}"

/-- `NewsGenerator._get_news_context` (lines 97-116).  The DDGS text search
is the external collaborator `ddgs_text`; `none` models a raised exception
(caught on line 113, leaving the initial empty text and empty source list). -/
def get_news_context (subject date_str : String)
    (ddgs_text : String → Option (List SearchRecord)) : SearchContext :=
  match ddgs_text (news_search_query subject date_str) with
  | none => { text := "", links := [] }
  | some results =>
    let p := buildContext 0 results
    { text := p.1, links := p.2 }

/-- `NewsGenerator._create_prompt` (lines 118-146). -/
def create_prompt (subject language date_str context_text : String) : String :=
  s!"\n        Act as a news aggregator. \n        Here is the raw news data gathered TODAY ({date_str}) for \x27{subject}\x27:\n        \n        === BEGIN RAW DATA ===\n        {context_text}\n        === END RAW DATA ===\n\n        INSTRUCTIONS:\n        1. Summarize these specific events. \n        2. **NO GENERIC FILLER**: Do not write \"Markets are digesting...\" or \"Political landscape is shifting...\". Use the specific facts from the Raw Data above.\n        3. **BANNED INTROS**: NEVER start with \"Today,\", \"On {date_str},\". Start directly with the event.\n        4. **Language**: Write in {language}.\n        5. **Schema**: Return ONLY JSON.\n        \n        JSON Schema:\n        \x7b\n            \"styles\": \x7b\n                \"impartial\": \x7b \n                    \"title\": \"Neutral Headline\",\n                    \"durations\": \x7b \"fast\": \"50 words max\", \"standard\": \"100 words\", \"deep\": \"250 words\" \x7d \n                \x7d,\n                \"informal\": \x7b \"title\": \"Casual Headline\", \"durations\": \x7b \"fast\": \"...\", \"standard\": \"...\", \"deep\": \"...\" \x7d \x7d,\n                \"analytic\": \x7b \"title\": \"Data-focused Headline\", \"durations\": \x7b \"fast\": \"...\", \"standard\": \"...\", \"deep\": \"...\" \x7d \x7d,\n                \"funny\": \x7b \"title\": \"Witty Headline\", \"durations\": \x7b \"fast\": \"...\", \"standard\": \"...\", \"deep\": \"...\" \x7d \x7d\n            \x7d\n        \x7d\n        "

/-- The code-fence cleanup of line 165:
`text_response.replace("```json", "").replace("```", "").strip()`. -/
def clean_model_response (text_response : String) : String :=
  pyStrip (pyReplace (pyReplace text_response "```json" "") "```" "")

/-- The JSON value `news_data["links"]` is stored as (line 167). -/
def sourcesJson (links : List String) : Json :=
  .arr (links.map .str)

/-- `NewsGenerator._generate_content_sync` (lines 153-172).  The model
call is the external collaborator `model` (prompt ↦ response text, `none`
models a raised provider error).  The second component records whether
the gated model call (line 163) was reached.  A response that parses but
is not a dict makes `data['sources'] = ...` raise, which the same
`except` catches, so only dicts survive. -/
def generate_content_sync (subject language date_str : String)
    (ddgs_text : String → Option (List SearchRecord))
    (model : String → Option String) : Option Json × Bool :=
  let news_data := get_news_context subject date_str ddgs_text
  if news_data.text.isEmpty then (none, false)
  else
    let prompt := create_prompt subject language date_str news_data.text
    match model prompt with
    | none => (none, true)
    | some text_response =>
      let clean_json := clean_model_response text_response
      match json_loads clean_json with
      | some (.obj fields) =>
        (some (.obj (pySet fields "sources" (sourcesJson news_data.links))), true)
      | some _ => (none, true)
      | none => (none, true)

/-- The effects of one `generate_content_async` invocation on its two
collaborating resources. -/
structure GenEffect where
  limiter_acquired : Bool
  model_called : Bool
deriving Repr, DecidableEq

/-- `NewsGenerator.generate_content_async` (lines 148-151): it awaits
`self.rate_limiter.wait_for_slot()` (line 149) before anything else — in
particular before `_generate_content_sync` fetches the search context —
so the limiter is acquired on every invocation. -/
def generate_content_async (subject language date_str : String)
    (ddgs_text : String → Option (List SearchRecord))
    (model : String → Option String) : Option Json × GenEffect :=
  let r := generate_content_sync subject language date_str ddgs_text model
  (r.1, { limiter_acquired := true, model_called := r.2 })

/-! ### `process_subject` (lines 176-211) -/

/-- The image-query selection loop of lines 186-193, with Python's
exception behaviour made explicit (`.error` = an uncaught `TypeError` /
`KeyError` escaping `process_subject`).  The running value starts as the
bare subject string and is overwritten (with a `break`) by the first
truthy `res['styles']['impartial']['title']`. -/
def select_image_query (subject : String) : List (Option Json) → Except Unit Json
  | [] => .ok (.str subject)
  | res :: rest =>
    match res with
    | none => select_image_query subject rest
    | some j =>
      if pyTruthy j then
        match pyIn "styles" j with
        | .error e => .error e
        | .ok false => select_image_query subject rest
        | .ok true =>
          match pySubscript j "styles" with
          | .error e => .error e
          | .ok styles =>
            match pyIn "impartial" styles with
            | .error e => .error e
            | .ok false => select_image_query subject rest
            | .ok true =>
              match pySubscript styles "impartial" with
              | .error e => .error e
              | .ok imp =>
                match pySubscript imp "title" with
                | .error e => .error e
                | .ok headline =>
                  if pyTruthy headline then .ok headline
                  else select_image_query subject rest
      else select_image_query subject rest

/-- The content-merge loop of lines 206-208: for each language (in
`Config.LANGUAGES` order), `if result:` — Python truthiness, so `None`
and falsy values (such as an empty dict) are skipped — store the result
in the `content` dict under the language code. -/
def build_content (lang_keys : List String) (results : List (Option Json)) :
    List (String × Json) :=
  (List.zip lang_keys results).foldl
    (fun acc p =>
      match p.2 with
      | some r => if pyTruthy r then pySet acc p.1 r else acc
      | none => acc) []

/-- Holds of a gathered result that is either absent (`None`) or truthy
under Python's `if result:` (line 207).  Every present result the
generator actually produces is truthy — it is a dict with at least the
`sources` key (`gen_result_truthy` below) — so this hypothesis only
excludes values the pipeline never gathers. -/
def truthyIfPresent : Option Json → Bool
  | none => true
  | some j => pyTruthy j

/-- The values appearing in the `subject_payload` dict (lines 199-204). -/
inductive PValue where
  | str (s : String)
  | serverTimestamp
  | contentMap (m : List (String × Json))

/-- Lookup in the payload dict. -/
def pvGet (payload : List (String × PValue)) (k : String) : Option PValue :=
  match payload with
  | [] => none
  | (k2, v) :: rest => if k2 = k then some v else pvGet rest k

/-- What one `process_subject` run hands to the document store (the write
targets `news/{date_str}/subjects/{doc_id}`). -/
structure ProcessOutcome where
  payload : List (String × PValue)
  date_str : String
  doc_id : String
  write_attempted : Bool

/-- `process_subject` (lines 176-211) after the per-language gather: the
gathered `results` are in `Config.LANGUAGES` order; the thumbnail lookup
is the collaborator `thumb_of` (`ImageService.get_thumbnail_url` catches
every exception, so it is total on string queries); the Firestore write
(line 211) is always reached when the selection loop did not raise, and
`save_subject_news` catches its own errors, so the write is attempted
unconditionally.  A non-string image query would make the placeholder
path's `urllib.parse.quote` raise inside the thumbnail step, modelled as
`.error`. -/
def process_subject (subject date_str : String)
    (results : List (Option Json)) (thumb_of : String → String) :
    Except Unit ProcessOutcome :=
  match select_image_query subject results with
  | .error e => .error e
  | .ok (.str image_search_query) =>
    let thumb_url := thumb_of image_search_query
    let lang_keys := Config.LANGUAGES.map Prod.snd
    let payload : List (String × PValue) :=
      [("category", .str subject),
       ("thumbUrl", .str thumb_url),
       ("updatedAt", .serverTimestamp),
       ("content", .contentMap (build_content lang_keys results))]
    .ok { payload := payload, date_str := date_str,
          doc_id := doc_id subject, write_attempted := true }
  | .ok _ => .error ()

/-! ### Definitions taken from the spec's wording, for comparison -/

/-- Modelled from the spec: the impartial headline a result offers — the
`title` string under `styles.impartial` — filtered to non-empty, as in
"use the first non-empty headline found under the impartial style". -/
def impartial_headline : Option Json → Option String
  | some (.obj fields) =>
    match pyGet fields "styles" with
    | some (.obj sf) =>
      match pyGet sf "impartial" with
      | some (.obj impf) =>
        match pyGet impf "title" with
        | some (.str t) => if t.isEmpty then none else some t
        | _ => none
      | _ => none
    | _ => none
  | _ => none

/-- Modelled from the spec: "scan results in configured language order;
use the first non-empty headline found under the impartial style; if none
found, fall back to the bare subject name". -/
def spec_image_query (subject : String) : List (Option Json) → String
  | [] => subject
  | r :: rest =>
    match impartial_headline r with
    | some t => t
    | none => spec_image_query subject rest

/-- Modelled from the spec: one formatted entry "SOURCE i: title /
SUMMARY: body" with a 1-based index. -/
def spec_source_line (i : Nat) (r : SearchRecord) : String :=
  let title := r.title
  let body := r.body
  s!"SOURCE {i}: {title}\nSUMMARY: {body}\n\n"

/-- Modelled from the spec: the entries concatenated in result order,
indexed from 1. -/
def spec_context_text : Nat → List SearchRecord → String
  | _, [] => ""
  | i, r :: rs => spec_source_line i r ++ spec_context_text (i + 1) rs

/-- Modelled from the spec: the fixed response schema — a `styles` object
with the four styles, each carrying a string `title` and a `durations`
object with string `fast`/`standard`/`deep` tiers. -/
def hasStrKey (fields : List (String × Json)) (k : String) : Bool :=
  match pyGet fields k with
  | some (.str _) => true
  | _ => false

def durationsOk : Json → Bool
  | .obj f => hasStrKey f "fast" && hasStrKey f "standard" && hasStrKey f "deep"
  | _ => false

def styleOk : Json → Bool
  | .obj f =>
    hasStrKey f "title" &&
      (match pyGet f "durations" with
       | some d => durationsOk d
       | none => false)
  | _ => false

def conformsFixedSchema : Json → Bool
  | .obj f =>
    (match pyGet f "styles" with
     | some (.obj sf) =>
       (match pyGet sf "impartial" with
        | some s => styleOk s
        | none => false) &&
       (match pyGet sf "informal" with
        | some s => styleOk s
        | none => false) &&
       (match pyGet sf "analytic" with
        | some s => styleOk s
        | none => false) &&
       (match pyGet sf "funny" with
        | some s => styleOk s
        | none => false)
     | _ => false)
  | _ => false

/-- Well-formedness of one gathered generation result, as far as the
selection loop inspects it: when a `styles` member is present it is a
dict, and when it has an `impartial` member that is a dict carrying a
string `title`.  (The loop raises an uncaught exception on other shapes;
the schema the model is instructed to return satisfies this.) -/
def wfResult : Option Json → Bool
  | none => true
  | some (.obj fields) =>
    (match pyGet fields "styles" with
     | none => true
     | some (.obj sf) =>
       (match pyGet sf "impartial" with
        | none => true
        | some (.obj impf) =>
          (match pyGet impf "title" with
           | some (.str _) => true
           | _ => false)
        | some _ => false)
     | some _ => false)
  | some _ => false

/-! ## Theorems -/

/-- Any granted slot stamps a time at least one interval after the stored
last-call time. -/
lemma wait_step_gap {interval last e s : ℚ} (h : wait_step interval last e s) :
    last + interval ≤ s := by
  obtain ⟨h1, h2⟩ := h
  by_cases hw : 0 < interval - (e - last)
  · have := h2 hw
    linarith
  · push_neg at hw
    linarith

/-- Along a serialized run, consecutive stamped times are at least one
interval apart, and the first stamp is at least `last + interval`. -/
lemma grantTrace_chain {interval : ℚ} :
    ∀ {last : ℚ} {tr : List (ℚ × ℚ)}, GrantTrace interval last tr →
      (tr.map Prod.snd).Chain' (fun a b => a + interval ≤ b) ∧
      (∀ x ∈ (tr.map Prod.snd).head?, last + interval ≤ x) := by
  intro last tr h
  induction h with
  | nil => simp
  | cons last e s rest hstep _ ih =>
    refine ⟨?_, ?_⟩
    · rw [List.map_cons, List.chain'_cons']
      exact ⟨ih.2, ih.1⟩
    · intro x hx
      simp at hx
      subst hx
      exact wait_step_gap hstep

/-- C1: along every serialized sequence of `RateLimiter.wait_for_slot`
grants (the lock serializes all concurrent callers), the stamped
`last_call_time` instants of consecutive granted slots are at least the
configured interval apart, starting from the initial `last_call_time = 0`. -/
theorem C1_rate_limiter_spacing (interval : ℚ) (tr : List (ℚ × ℚ))
    (h : GrantTrace interval 0 tr) :
    (tr.map Prod.snd).Chain' (fun a b => a + interval ≤ b) :=
  (grantTrace_chain h).1

/-- C1 witness: a concrete two-slot run at the configured 10-second
interval — the second caller arrives 1s after the first stamp and is held
until 10s have elapsed. -/
theorem C1_rate_limiter_spacing_witness :
    GrantTrace Config.REQUEST_INTERVAL_SECONDS 0 [(20, 20), (21, 30)] ∧
      (([((20 : ℚ), (20 : ℚ)), (21, 30)]).map Prod.snd).Chain'
        (fun a b => a + Config.REQUEST_INTERVAL_SECONDS ≤ b) := by
  have w : GrantTrace Config.REQUEST_INTERVAL_SECONDS 0 [(20, 20), (21, 30)] := by
    refine .cons _ _ _ _ ⟨by norm_num, ?_⟩ (.cons _ _ _ _ ⟨by norm_num, ?_⟩ (.nil _)) <;>
      · intro hlt
        norm_num [Config.REQUEST_INTERVAL_SECONDS] at hlt ⊢
  exact ⟨w, C1_rate_limiter_spacing Config.REQUEST_INTERVAL_SECONDS _ w⟩

/-- C6: placeholder URL generation is the pure function
`template ++ urllib-quote(text)`; on "A/B Test" the encoder yields
"A/B%20Test" (the space percent-encoded, the slash safe by `quote`'s
default), which the resulting URL contains verbatim. -/
theorem C6_placeholder_encoding :
    (∀ text, get_placeholder text =
      "https://placehold.co/600x400/1e293b/ffffff/png?text=" ++ quote text) ∧
    quote "A/B Test" = "A/B%20Test" ∧
    get_placeholder "A/B Test" =
      "https://placehold.co/600x400/1e293b/ffffff/png?text=A/B%20Test" :=
  ⟨fun _ => rfl, rfl, rfl⟩

/-- C7: the slug map lower-cases and hyphenates, sending
"Economy & Business" to "economy-business" and "Health & Science" to
"health-science", and the six configured subjects get pairwise distinct
slugs. -/
theorem C7_doc_id_slugs :
    doc_id "Economy & Business" = "economy-business" ∧
    doc_id "Health & Science" = "health-science" ∧
    (Config.SUBJECTS.map doc_id).Nodup :=
  ⟨rfl, rfl, by decide⟩

/-- The i-th accumulated line equals the spec's 1-based line. -/
lemma contextLine_eq_spec (i : Nat) (r : SearchRecord) :
    contextLine i r = spec_source_line (i + 1) r := rfl

/-- The accumulation loop produces the spec's indexed concatenation and
the hrefs in order. -/
lemma buildContext_eq (rs : List SearchRecord) :
    ∀ i, buildContext i rs = (spec_context_text (i + 1) rs, rs.map SearchRecord.href) := by
  induction rs with
  | nil => intro i; rfl
  | cons r rs ih =>
    intro i
    simp [buildContext, spec_context_text, ih, contextLine_eq_spec]

/-- C8: `_get_news_context` returns the empty context (empty text, no
links) when the search call raises or returns no results, and on success
the concatenation "SOURCE i: title \ SUMMARY: body" in result order with
the URLs in the same order. -/
theorem C8_search_context :
    (∀ subject date_str ddgs_text,
      ddgs_text (news_search_query subject date_str) = none →
      get_news_context subject date_str ddgs_text = { text := "", links := [] }) ∧
    (∀ subject date_str ddgs_text,
      ddgs_text (news_search_query subject date_str) = some [] →
      get_news_context subject date_str ddgs_text = { text := "", links := [] }) ∧
    (∀ subject date_str ddgs_text results,
      ddgs_text (news_search_query subject date_str) = some results →
      get_news_context subject date_str ddgs_text =
        { text := spec_context_text 1 results,
          links := results.map SearchRecord.href }) := by
  refine ⟨?_, ?_, ?_⟩ <;> intro subject date_str ddgs_text
  · intro h
    simp [get_news_context, h]
  · intro h
    simp [get_news_context, h]
    exact ⟨rfl, rfl⟩
  · intro results h
    simp [get_news_context, h, buildContext_eq results 0]

/-- C8 witness: the raised-exception case and a one-result success. -/
theorem C8_search_context_witness :
    get_news_context "Politics" "2026-02-01" (fun _ => none) =
      { text := "", links := [] } ∧
    get_news_context "Sports" "2026-02-01"
        (fun _ => some [⟨"T", "B", "http://u"⟩]) =
      { text := spec_context_text 1 [⟨"T", "B", "http://u"⟩],
        links := ["http://u"] } :=
  ⟨C8_search_context.1 _ _ _ rfl, C8_search_context.2.2 _ _ _ _ rfl⟩

/-- C10: the pre-parse cleanup removes every occurrence of "```json" and
"```" anywhere in the response (also mid-text), then strips surrounding
whitespace — so a fence sequence inside a JSON string value is deleted
from the parsed payload: a model response whose impartial title text is
"A```B" ends up stored with title "AB". -/
theorem C10_fence_removal :
    clean_model_response "x```jsony```z" = "xyz" ∧
    clean_model_response " ```json\n\x7b\"a\": 1\x7d\n``` " = "\x7b\"a\": 1\x7d" ∧
    (generate_content_sync "Politics" "English" "2026-02-01"
        (fun _ => some [⟨"T", "B", "http://u"⟩])
        (fun _ => some "\x7b\"styles\": \x7b\"impartial\": \x7b\"title\": \"A```B\"\x7d\x7d\x7d")).1 =
      some (.obj [("styles", .obj [("impartial", .obj [("title", .str "AB")])]),
                  ("sources", .arr [.str "http://u"])]) :=
  ⟨rfl, rfl, rfl⟩

/-- C2 counterexample: an invocation whose search context has empty text
(the search returned no results) nevertheless acquires the RateLimiter —
`wait_for_slot` is awaited on line 149, before the context is even
fetched — so the claim's "the RateLimiter is never acquired" is false.
(The result is indeed `None` and the model is not called.) -/
theorem C2_counterexample :
    (get_news_context "Politics" "2026-02-01" (fun _ => some [])).text = "" ∧
    (generate_content_async "Politics" "English" "2026-02-01"
        (fun _ => some []) (fun _ => none)).1 = none ∧
    (generate_content_async "Politics" "English" "2026-02-01"
        (fun _ => some []) (fun _ => none)).2.model_called = false ∧
    (generate_content_async "Politics" "English" "2026-02-01"
        (fun _ => some []) (fun _ => none)).2.limiter_acquired = true :=
  ⟨rfl, rfl, rfl, rfl⟩

/-- C2 (amended): when the search context's text is empty, the invocation
returns `None` and never calls the model collaborator, but the
RateLimiter *is* acquired (unconditionally, before the context fetch), so
its last-call timestamp does get updated by the invocation. -/
theorem C2_empty_context (subject language date_str : String)
    (ddgs_text : String → Option (List SearchRecord))
    (model : String → Option String)
    (h : (get_news_context subject date_str ddgs_text).text = "") :
    (generate_content_async subject language date_str ddgs_text model).1 = none ∧
    (generate_content_async subject language date_str ddgs_text model).2.model_called = false ∧
    (generate_content_async subject language date_str ddgs_text model).2.limiter_acquired = true := by
  have h2 : (get_news_context subject date_str ddgs_text).text.isEmpty = true := by
    rw [h]
    rfl
  simp [generate_content_async, generate_content_sync, h2]

/-- C2 witness: the amended statement at a raising search call. -/
theorem C2_empty_context_witness :
    (generate_content_async "Politics" "English" "2026-02-01"
        (fun _ => none) (fun _ => none)).1 = none ∧
    (generate_content_async "Politics" "English" "2026-02-01"
        (fun _ => none) (fun _ => none)).2.model_called = false ∧
    (generate_content_async "Politics" "English" "2026-02-01"
        (fun _ => none) (fun _ => none)).2.limiter_acquired = true :=
  C2_empty_context "Politics" "English" "2026-02-01" _ _ rfl

/-- Setting a key makes it present with that value. -/
lemma pyGet_pySet_self (fields : List (String × Json)) (k : String) (v : Json) :
    pyGet (pySet fields k v) k = some v := by
  induction fields with
  | nil => simp [pySet, pyGet]
  | cons p rest ih =>
    by_cases h : p.1 = k
    · simp [pySet, pyGet, h]
    · simp [pySet, pyGet, h, ih]

/-- C3 counterexample: the model answers the valid JSON text of an empty
object; the code stores it (with the sources attached) even though it
matches nothing of the fixed schema — no schema validation happens, so
"fully valid structured object matching the fixed schema" is false. -/
theorem C3_counterexample :
    (generate_content_sync "Politics" "English" "2026-02-01"
        (fun _ => some [⟨"T", "B", "http://u"⟩]) (fun _ => some "\x7b\x7d")).1 =
      some (.obj [("sources", .arr [.str "http://u"])]) ∧
    conformsFixedSchema (.obj [("sources", .arr [.str "http://u"])]) = false :=
  ⟨rfl, rfl⟩

/-- Decomposition of every `some` result of the sync generator: the model
answered, the cleaned answer parsed in full as a JSON object, and the
result is that object with the sources entry set. -/
lemma gen_sync_some_decomp (subject language date_str : String)
    (ddgs_text : String → Option (List SearchRecord))
    (model : String → Option String) (j : Json)
    (h : (generate_content_sync subject language date_str ddgs_text model).1 = some j) :
    ∃ resp fields,
      model (create_prompt subject language date_str
        (get_news_context subject date_str ddgs_text).text) = some resp ∧
      json_loads (clean_model_response resp) = some (.obj fields) ∧
      j = .obj (pySet fields "sources"
        (sourcesJson (get_news_context subject date_str ddgs_text).links)) := by
  by_cases hty : (get_news_context subject date_str ddgs_text).text.isEmpty = true
  · simp [generate_content_sync, hty] at h
  · simp only [generate_content_sync, hty, if_false, Bool.false_eq_true,
      if_neg, ite_false] at h
    cases hm : model (create_prompt subject language date_str
        (get_news_context subject date_str ddgs_text).text) with
    | none => rw [hm] at h; simp at h
    | some resp =>
      simp only [hm] at h
      cases hp : json_loads (clean_model_response resp) with
      | none => simp only [hp] at h; simp at h
      | some v =>
        simp only [hp] at h
        cases v with
        | obj fields =>
          simp at h
          exact ⟨resp, fields, rfl, hp, h.symm⟩
        | null => simp at h
        | bool b => simp at h
        | num n => simp at h
        | str s => simp at h
        | arr xs => simp at h

/-- Setting a key never leaves an empty dict. -/
lemma pySet_ne_nil (fields : List (String × Json)) (k : String) (v : Json) :
    pySet fields k v ≠ [] := by
  cases fields with
  | nil => simp [pySet]
  | cons p rest =>
    by_cases h : p.1 = k <;> simp [pySet, h]

/-- Every present result of the generator is truthy: it is a dict holding
at least the `sources` entry, hence nonempty.  This justifies the
`truthyIfPresent` hypothesis on gathered results. -/
lemma gen_result_truthy (subject language date_str : String)
    (ddgs_text : String → Option (List SearchRecord))
    (model : String → Option String) (j : Json)
    (h : (generate_content_sync subject language date_str ddgs_text model).1 = some j) :
    pyTruthy j = true := by
  obtain ⟨resp, fields, -, -, hj⟩ :=
    gen_sync_some_decomp subject language date_str ddgs_text model j h
  subst hj
  have hne := pySet_ne_nil fields "sources"
    (sourcesJson (get_news_context subject date_str ddgs_text).links)
  cases hp : pySet fields "sources"
      (sourcesJson (get_news_context subject date_str ddgs_text).links) with
  | nil => exact absurd hp hne
  | cons a l => simp [pyTruthy, hp]

/-- C3 (amended): the result is all-or-nothing only at the JSON level —
either `None`, or the model's response text parsed *in full* as a JSON
object (half-parses and non-object values are discarded) with the source
list attached; schema completeness is not validated, so a parsed object
missing styles or tiers is returned as-is. -/
theorem C3_all_or_nothing (subject language date_str : String)
    (ddgs_text : String → Option (List SearchRecord))
    (model : String → Option String) (j : Json)
    (h : (generate_content_sync subject language date_str ddgs_text model).1 = some j) :
    ∃ resp fields,
      model (create_prompt subject language date_str
        (get_news_context subject date_str ddgs_text).text) = some resp ∧
      json_loads (clean_model_response resp) = some (.obj fields) ∧
      j = .obj (pySet fields "sources"
        (sourcesJson (get_news_context subject date_str ddgs_text).links)) :=
  gen_sync_some_decomp subject language date_str ddgs_text model j h

/-- C3 witness: the amended statement at the empty-object response. -/
theorem C3_all_or_nothing_witness :
    ∃ resp fields,
      (fun _ => some "\x7b\x7d" : String → Option String)
        (create_prompt "Politics" "English" "2026-02-01"
          (get_news_context "Politics" "2026-02-01"
            (fun _ => some [⟨"T", "B", "http://u"⟩])).text) = some resp ∧
      json_loads (clean_model_response resp) = some (.obj fields) ∧
      Json.obj [("sources", .arr [.str "http://u"])] = .obj (pySet fields "sources"
        (sourcesJson (get_news_context "Politics" "2026-02-01"
          (fun _ => some [⟨"T", "B", "http://u"⟩])).links)) :=
  C3_all_or_nothing "Politics" "English" "2026-02-01"
    (fun _ => some [⟨"T", "B", "http://u"⟩]) (fun _ => some "\x7b\x7d")
    (Json.obj [("sources", .arr [.str "http://u"])]) rfl

/-- C5: whenever the generator returns a value, it is a dict whose
`sources` entry is exactly the link list of the search context obtained
in the same invocation — the parsed model JSON's own `sources` field, if
any, is overwritten. -/
theorem C5_sources_attached (subject language date_str : String)
    (ddgs_text : String → Option (List SearchRecord))
    (model : String → Option String) (j : Json)
    (h : (generate_content_sync subject language date_str ddgs_text model).1 = some j) :
    ∃ fields, j = .obj fields ∧
      pyGet fields "sources" =
        some (sourcesJson (get_news_context subject date_str ddgs_text).links) := by
  obtain ⟨resp, fields, -, -, hj⟩ :=
    gen_sync_some_decomp subject language date_str ddgs_text model j h
  exact ⟨_, hj, pyGet_pySet_self fields "sources" _⟩

/-- C5 witness: the model's JSON already carries a fake `sources` field;
the stored result holds the search context's real link instead. -/
theorem C5_sources_attached_witness :
    ∃ fields, Json.obj [("sources", sourcesJson ["http://real"])] = .obj fields ∧
      pyGet fields "sources" =
        some (sourcesJson (get_news_context "Sports" "2026-02-01"
          (fun _ => some [⟨"T", "B", "http://real"⟩])).links) :=
  C5_sources_attached "Sports" "English" "2026-02-01"
    (fun _ => some [⟨"T", "B", "http://real"⟩])
    (fun _ => some "\x7b\"sources\": [\"fake\"]\x7d")
    (Json.obj [("sources", sourcesJson ["http://real"])]) rfl

/-- On well-formed gathered results the selection loop of lines 186-193
returns (without raising) exactly the spec's scan: the first non-empty
impartial title, else the bare subject. -/
lemma select_eq_spec (subject : String) :
    ∀ results : List (Option Json), results.all wfResult = true →
      select_image_query subject results =
        .ok (.str (spec_image_query subject results)) := by
  intro results
  induction results with
  | nil => intro _; rfl
  | cons r rest ih =>
    intro hall
    rw [List.all_cons, Bool.and_eq_true] at hall
    obtain ⟨hr, hrest⟩ := hall
    cases r with
    | none =>
      simpa [select_image_query, spec_image_query, impartial_headline]
        using ih hrest
    | some j =>
      cases j with
      | null => simp [wfResult] at hr
      | bool b => simp [wfResult] at hr
      | num n => simp [wfResult] at hr
      | str s => simp [wfResult] at hr
      | arr xs => simp [wfResult] at hr
      | obj fields =>
        cases fields with
        | nil =>
          simpa [select_image_query, spec_image_query, impartial_headline,
            pyTruthy, pyGet] using ih hrest
        | cons p ps =>
          cases hst : pyGet (p :: ps) "styles" with
          | none =>
            simpa [select_image_query, spec_image_query, impartial_headline,
              pyTruthy, pyIn, pyHasKey, hst] using ih hrest
          | some v =>
            cases v with
            | null => simp [wfResult, hst] at hr
            | bool b => simp [wfResult, hst] at hr
            | num n => simp [wfResult, hst] at hr
            | str s => simp [wfResult, hst] at hr
            | arr xs => simp [wfResult, hst] at hr
            | obj sf =>
              cases himp : pyGet sf "impartial" with
              | none =>
                simpa [select_image_query, spec_image_query,
                  impartial_headline, pyTruthy, pyIn, pyHasKey, pySubscript,
                  hst, himp] using ih hrest
              | some w =>
                cases w with
                | null => simp [wfResult, hst, himp] at hr
                | bool b => simp [wfResult, hst, himp] at hr
                | num n => simp [wfResult, hst, himp] at hr
                | str s => simp [wfResult, hst, himp] at hr
                | arr xs => simp [wfResult, hst, himp] at hr
                | obj impf =>
                  cases ht : pyGet impf "title" with
                  | none => simp [wfResult, hst, himp, ht] at hr
                  | some hl =>
                    cases hl with
                    | null => simp [wfResult, hst, himp, ht] at hr
                    | bool b => simp [wfResult, hst, himp, ht] at hr
                    | num n => simp [wfResult, hst, himp, ht] at hr
                    | arr xs => simp [wfResult, hst, himp, ht] at hr
                    | obj f2 => simp [wfResult, hst, himp, ht] at hr
                    | str t =>
                      by_cases hte : t.isEmpty = true
                      · simpa [select_image_query, spec_image_query,
                          impartial_headline, pyTruthy, pyIn, pyHasKey,
                          pySubscript, hst, himp, ht, hte] using ih hrest
                      · simp [select_image_query, spec_image_query,
                          impartial_headline, pyTruthy, pyIn, pyHasKey,
                          pySubscript, hst, himp, ht, hte]

/-- C4: on every run whose gathered results are well-formed (each present
result that offers `styles.impartial` carries a string title there), the
image-search query is the first non-empty impartial headline in
configured language order, and the bare subject string when every
language failed or every impartial headline is empty. -/
theorem C4_image_query (subject : String) (results : List (Option Json))
    (h : results.all wfResult = true) :
    select_image_query subject results =
      .ok (.str (spec_image_query subject results)) :=
  select_eq_spec subject results h

/-- C4 witness: the spec's own example — English fails, Portuguese
succeeds with impartial title "Final decide titulo"; the query is that
title.  (Had both failed, `spec_image_query` would give "Sports".) -/
theorem C4_image_query_witness :
    ([none, some (Json.obj
        [("styles", .obj [("impartial", .obj [("title", .str "Final decide titulo")])]),
         ("sources", .arr [])])].all wfResult = true) ∧
    select_image_query "Sports"
        [none, some (Json.obj
          [("styles", .obj [("impartial", .obj [("title", .str "Final decide titulo")])]),
           ("sources", .arr [])])] =
      .ok (.str "Final decide titulo") :=
  ⟨rfl, C4_image_query "Sports" _ rfl⟩

/-- C9: with the three configured languages gathered in order, a
well-formed run of `process_subject` always reaches the Firestore write,
the written payload holds exactly the keys `category`, `thumbUrl`,
`updatedAt` and `content`, each successful language's result sits in the
content map under its code, failed languages are absent (`none` lookup),
and when every generation failed the content map is empty and the
thumbnail was looked up under the bare subject name.  The
`truthyIfPresent` hypotheses reflect line 207's `if result:` guard:
every result the generator actually hands over is absent or truthy
(`gen_result_truthy`). -/
theorem C9_payload_written (subject date_str : String)
    (r1 r2 r3 : Option Json)
    (h1 : wfResult r1 = true) (h2 : wfResult r2 = true)
    (h3 : wfResult r3 = true)
    (ht1 : truthyIfPresent r1 = true) (ht2 : truthyIfPresent r2 = true)
    (ht3 : truthyIfPresent r3 = true) (thumb_of : String → String) :
    ∃ out, process_subject subject date_str [r1, r2, r3] thumb_of = .ok out ∧
      out.write_attempted = true ∧
      out.payload.map Prod.fst = ["category", "thumbUrl", "updatedAt", "content"] ∧
      pvGet out.payload "category" = some (.str subject) ∧
      pvGet out.payload "thumbUrl" =
        some (.str (thumb_of (spec_image_query subject [r1, r2, r3]))) ∧
      pvGet out.payload "updatedAt" = some .serverTimestamp ∧
      pvGet out.payload "content" =
        some (.contentMap (build_content ["en", "pt", "es"] [r1, r2, r3])) ∧
      pyGet (build_content ["en", "pt", "es"] [r1, r2, r3]) "en" = r1 ∧
      pyGet (build_content ["en", "pt", "es"] [r1, r2, r3]) "pt" = r2 ∧
      pyGet (build_content ["en", "pt", "es"] [r1, r2, r3]) "es" = r3 ∧
      (r1 = none → r2 = none → r3 = none →
        build_content ["en", "pt", "es"] [r1, r2, r3] = [] ∧
        pvGet out.payload "thumbUrl" = some (.str (thumb_of subject))) := by
  have hsel := select_eq_spec subject [r1, r2, r3] (by simp [h1, h2, h3])
  have hen : pyGet (build_content ["en", "pt", "es"] [r1, r2, r3]) "en" = r1 := by
    cases r1 <;> cases r2 <;> cases r3 <;>
      simp_all [build_content, truthyIfPresent, pySet, pyGet]
  have hpt : pyGet (build_content ["en", "pt", "es"] [r1, r2, r3]) "pt" = r2 := by
    cases r1 <;> cases r2 <;> cases r3 <;>
      simp_all [build_content, truthyIfPresent, pySet, pyGet]
  have hes : pyGet (build_content ["en", "pt", "es"] [r1, r2, r3]) "es" = r3 := by
    cases r1 <;> cases r2 <;> cases r3 <;>
      simp_all [build_content, truthyIfPresent, pySet, pyGet]
  refine ⟨⟨[("category", .str subject),
       ("thumbUrl", .str (thumb_of (spec_image_query subject [r1, r2, r3]))),
       ("updatedAt", .serverTimestamp),
       ("content", .contentMap (build_content ["en", "pt", "es"] [r1, r2, r3]))],
      date_str, doc_id subject, true⟩,
    ?_, rfl, rfl, rfl, rfl, rfl, rfl, hen, hpt, hes, ?_⟩
  · simp [process_subject, hsel]
    rfl
  · intro e1 e2 e3
    subst e1; subst e2; subst e3
    exact ⟨rfl, rfl⟩

/-- C9 witness: Portuguese succeeds, English and Spanish fail; the
payload is written with exactly the four keys, `pt` present, `en`/`es`
absent. -/
theorem C9_payload_written_witness :
    ∃ out, process_subject "Sports" "2026-02-01"
        [none,
         some (Json.obj
           [("styles", .obj [("impartial", .obj [("title", .str "Final decide titulo")])]),
            ("sources", .arr [])]),
         none] get_placeholder = .ok out ∧
      out.write_attempted = true ∧
      out.payload.map Prod.fst = ["category", "thumbUrl", "updatedAt", "content"] ∧
      pvGet out.payload "category" = some (.str "Sports") ∧
      pvGet out.payload "thumbUrl" =
        some (.str (get_placeholder (spec_image_query "Sports"
          [none,
           some (Json.obj
             [("styles", .obj [("impartial", .obj [("title", .str "Final decide titulo")])]),
              ("sources", .arr [])]),
           none]))) ∧
      pvGet out.payload "updatedAt" = some .serverTimestamp ∧
      pvGet out.payload "content" =
        some (.contentMap (build_content ["en", "pt", "es"]
          [none,
           some (Json.obj
             [("styles", .obj [("impartial", .obj [("title", .str "Final decide titulo")])]),
              ("sources", .arr [])]),
           none])) ∧
      pyGet (build_content ["en", "pt", "es"]
          [none,
           some (Json.obj
             [("styles", .obj [("impartial", .obj [("title", .str "Final decide titulo")])]),
              ("sources", .arr [])]),
           none]) "en" = none ∧
      pyGet (build_content ["en", "pt", "es"]
          [none,
           some (Json.obj
             [("styles", .obj [("impartial", .obj [("title", .str "Final decide titulo")])]),
              ("sources", .arr [])]),
           none]) "pt" =
        some (Json.obj
          [("styles", .obj [("impartial", .obj [("title", .str "Final decide titulo")])]),
           ("sources", .arr [])]) ∧
      pyGet (build_content ["en", "pt", "es"]
          [none,
           some (Json.obj
             [("styles", .obj [("impartial", .obj [("title", .str "Final decide titulo")])]),
              ("sources", .arr [])]),
           none]) "es" = none ∧
      (none = (none : Option Json) →
        some (Json.obj
          [("styles", .obj [("impartial", .obj [("title", .str "Final decide titulo")])]),
           ("sources", .arr [])]) = none →
        none = (none : Option Json) →
        build_content ["en", "pt", "es"]
          [none,
           some (Json.obj
             [("styles", .obj [("impartial", .obj [("title", .str "Final decide titulo")])]),
              ("sources", .arr [])]),
           none] = [] ∧
        pvGet out.payload "thumbUrl" = some (.str (get_placeholder "Sports"))) :=
  C9_payload_written "Sports" "2026-02-01" none
    (some (Json.obj
      [("styles", .obj [("impartial", .obj [("title", .str "Final decide titulo")])]),
       ("sources", .arr [])]))
    none rfl rfl rfl rfl rfl rfl get_placeholder

end NewsGen
